import Mathlib

/-!
Verification of the streamer live-relay core: a shallow embedding, in Lean 4,
of the slice-header codec, the HLS playlist generator, the RTMP handshake and
chunk-header writer, the live buffer queue, the TS demuxer's H.264 flush and
the H.264 SPS parser, together with theorems settling the specification's
claims about them.  Byte strings are modelled as `List Nat` with every element
a value below 256; Go unsigned machine integers are modelled as `Nat` with
explicit reduction modulo 2^w where the code can wrap.
-/

namespace Streamer

/-- 2^64, the modulus of Go's `uint`/`uint64` arithmetic. -/
def M64 : Nat := 18446744073709551616

/-- 2^32, the modulus of Go's `uint32` arithmetic. -/
def M32 : Nat := 4294967296

/-- 2^16, the modulus of Go's `uint16` arithmetic. -/
def M16 : Nat := 65536

/-- Go `uint64` subtraction `a - b`, two's-complement wraparound. -/
def usub64 (a b : Nat) : Nat := (a % M64 + (M64 - b % M64)) % M64

/-- `binary.BigEndian.PutUint16` (utils.Uint16ToBytes): two big-endian bytes. -/
def u16be (v : Nat) : List Nat := [v / 256 % 256, v % 256]

/-- `binary.BigEndian.PutUint32` (utils.Uint32ToBytes, pio.PutU32BE): four big-endian bytes. -/
def u32be (v : Nat) : List Nat :=
  [v / 16777216 % 256, v / 65536 % 256, v / 256 % 256, v % 256]

/-- `binary.BigEndian.PutUint64` (utils.Uint64ToBytes): eight big-endian bytes. -/
def u64be (v : Nat) : List Nat :=
  [v / 72057594037927936 % 256, v / 281474976710656 % 256,
   v / 1099511627776 % 256, v / 4294967296 % 256,
   v / 16777216 % 256, v / 65536 % 256, v / 256 % 256, v % 256]

/-- `pio.PutU24BE`: three big-endian bytes. -/
def u24be (v : Nat) : List Nat := [v / 65536 % 256, v / 256 % 256, v % 256]

/-- `pio.PutU32LE`: four little-endian bytes. -/
def u32le (v : Nat) : List Nat :=
  [v % 256, v / 256 % 256, v / 65536 % 256, v / 16777216 % 256]

/-- `binary.BigEndian.Uint16` (utils.BytesToUint16) on the first two bytes. -/
def bytesToUint16 (b : List Nat) : Nat := b.getD 0 0 * 256 + b.getD 1 0

/-- `binary.BigEndian.Uint32` (utils.BytesToUint32) on the first four bytes. -/
def bytesToUint32 (b : List Nat) : Nat :=
  b.getD 0 0 * 16777216 + b.getD 1 0 * 65536 + b.getD 2 0 * 256 + b.getD 3 0

/-- `binary.BigEndian.Uint64` (utils.BytesToUint64) on the first eight bytes. -/
def bytesToUint64 (b : List Nat) : Nat :=
  b.getD 0 0 * 72057594037927936 + b.getD 1 0 * 281474976710656 +
  b.getD 2 0 * 1099511627776 + b.getD 3 0 * 4294967296 +
  b.getD 4 0 * 16777216 + b.getD 5 0 * 65536 + b.getD 6 0 * 256 + b.getD 7 0

end Streamer

namespace Streamer.slice

/-- Constant `KSliceHeaderSize` of media/slice: the fixed slice header length. -/
def KSliceHeaderSize : Nat := 15

/-- Constant `KSliceSizeThreshold = 3 << 10` of media/slice. -/
def KSliceSizeThreshold : Nat := 3072

/-- The slice `Packet` of media/slice (header fields; `Size` is uint16,
`SliceType`/`PosFlag`/`FrameType`/`Reserved`/`ExtendFlag` are uint8,
`SliceId` is uint64, `FrameId` is uint32, all modelled as `Nat`). -/
structure Packet where
  size       : Nat
  sliceType  : Nat
  sliceId    : Nat
  frameId    : Nat
  posFlag    : Nat
  frameType  : Nat
  reserved   : Nat
  extendFlag : Nat
  data       : List Nat
  deriving Repr, DecidableEq

/-- `makeSliceHeader` of media/slice: 15 header bytes
`(Size<<4|SliceType) u16be, SliceId u64be, FrameId u32be,
(PosFlag<<6)+(FrameType<<4)+ExtendFlag`.  The shifts and sums are Go
uint16/uint8 arithmetic, hence the explicit mods. -/
def makeSliceHeader (pkt : Packet) : List Nat :=
  let sizeType := (pkt.size * 16 % M16 + pkt.sliceType) % M16
  let lastByte := (pkt.posFlag * 64 % 256 + pkt.frameType * 16 % 256 + pkt.extendFlag) % 256
  u16be sizeType ++ u64be pkt.sliceId ++ u32be pkt.frameId ++ [lastByte]

/-- `ParseSliceHeader` of media/slice: decode the 15 header bytes; the returned
`Bool` is true when the size check `pkt.Size > KSliceSizeThreshold` raised the
error (the packet and length are returned either way, as in the source). -/
def ParseSliceHeader (data : List Nat) : Packet × Nat × Bool :=
  let sizeType := bytesToUint16 (data.take 2)
  let lastByte := data.getD 14 0
  let pkt : Packet :=
    { size       := sizeType / 16
      sliceType  := sizeType % 16
      sliceId    := bytesToUint64 ((data.drop 2).take 8)
      frameId    := bytesToUint32 ((data.drop 10).take 4)
      posFlag    := lastByte / 64
      frameType  := lastByte / 16 % 4
      reserved   := 0
      extendFlag := lastByte % 2
      data       := [] }
  (pkt, pkt.size, decide (pkt.size > KSliceSizeThreshold))

end Streamer.slice

namespace Streamer.hls

/-- `TSItem` of media/protocol/hls/cache.go (the `Data` payload is not needed
by the playlist generator's numeric fields and is omitted). -/
structure TSItem where
  name     : String
  seqNum   : Int
  duration : Int
  deriving Repr, DecidableEq

/-- The numeric header fields of the playlist written by
`TSCache.genM3U8PlayList`, plus the `#EXTINF` entries (duration in ms and
segment name). -/
structure M3U8 where
  targetDuration : Int
  mediaSequence  : Int
  entries        : List (Int × String)
  deriving Repr, DecidableEq

/-- The loop body state of `genM3U8PlayList`: running `maxDuration`, the
`seq`/`getSeq` pair and the `#EXTINF` lines accumulated so far. -/
structure GenState where
  seq         : Int
  getSeq      : Bool
  maxDuration : Int
  entries     : List (Int × String)

/-- One iteration of the `genM3U8PlayList` loop over a resolved cache item
(`v.Duration > maxDuration` updates the maximum, the first item fixes `seq`,
every item appends an `#EXTINF` entry). -/
def genStep (s : GenState) (v : TSItem) : GenState :=
  { seq         := if s.getSeq then s.seq else v.seqNum
    getSeq      := true
    maxDuration := if v.duration > s.maxDuration then v.duration else s.maxDuration
    entries     := s.entries ++ [(v.duration, v.name)] }

/-- `TSCache.genM3U8PlayList` of media/protocol/hls/cache.go, over the list of
cache items in play-list order (each `ll` key resolved through `lm`; lookups
that fail are already removed from `items`).  The first item is skipped, the
maximum listed duration and first listed sequence number are folded, and the
`#EXT-X-TARGETDURATION` field is written as `maxDuration/1000+1` (Go `int`
division). -/
def genM3U8PlayList (items : List TSItem) : M3U8 :=
  let s := (items.drop 1).foldl genStep ⟨0, false, 0, []⟩
  { targetDuration := s.maxDuration.tdiv 1000 + 1
    mediaSequence  := s.seq
    entries        := s.entries }

end Streamer.hls

namespace Streamer.rtmp

open Streamer

/-- Constant `FlvTimestampMax = 0xFFFFFF` of the RTMP engine. -/
def FlvTimestampMax : Nat := 16777215

/-- Go's `uint32(x)` cast of an `int32` value: the two's-complement bit
pattern as a natural number. -/
def u32ofI32 (t : Int) : Nat := (t % 4294967296).toNat

/-- `conn.fillChunkHeader`: the type-0 chunk header bytes written for csid,
timestamp (an int32), message type, stream id and body length.  The 24-bit
timestamp field carries the timestamp when `uint32(timestamp) <= 0xFFFFFF`,
else `0xFFFFFF`; in the latter case a 4-byte big-endian extended timestamp
follows the 12-byte header. -/
def fillChunkHeader (csid : Nat) (timestamp : Int) (msgtypeid msgsid msgdatalen : Nat) :
    List Nat :=
  let ts := u32ofI32 timestamp
  [csid % 256 % 64] ++
  (if ts ≤ FlvTimestampMax then u24be ts else u24be FlvTimestampMax) ++
  u24be (msgdatalen % M32) ++
  [msgtypeid % 256] ++
  u32le (msgsid % M32) ++
  (if ts > FlvTimestampMax then u32be ts else [])

/-- The 62-byte `hsClientFullKey` constant ("Genuine Adobe Flash Player 001"
plus the 32 shared trailing bytes). -/
def hsClientFullKey : List Nat :=
  "Genuine Adobe Flash Player 001".data.map Char.toNat ++
  [0xF0, 0xEE, 0xC2, 0x4A, 0x80, 0x68, 0xBE, 0xE8, 0x2E, 0x00, 0xD0, 0xD1,
   0x02, 0x9E, 0x7E, 0x57, 0x6E, 0xEC, 0x5D, 0x2D, 0x29, 0x80, 0x6F, 0xAB,
   0x93, 0xB8, 0xE6, 0x36, 0xCF, 0xEB, 0x31, 0xAE]

/-- The 68-byte `hsServerFullKey` constant ("Genuine Adobe Flash Media Server
001" plus the 32 shared trailing bytes). -/
def hsServerFullKey : List Nat :=
  "Genuine Adobe Flash Media Server 001".data.map Char.toNat ++
  [0xF0, 0xEE, 0xC2, 0x4A, 0x80, 0x68, 0xBE, 0xE8, 0x2E, 0x00, 0xD0, 0xD1,
   0x02, 0x9E, 0x7E, 0x57, 0x6E, 0xEC, 0x5D, 0x2D, 0x29, 0x80, 0x6F, 0xAB,
   0x93, 0xB8, 0xE6, 0x36, 0xCF, 0xEB, 0x31, 0xAE]

/-- First 30 bytes of the client key (source: hsClientFullKey[:30]). -/
def hsClientPartKey : List Nat := hsClientFullKey.take 30

/-- First 36 bytes of the server key (source: hsServerFullKey[:36]). -/
def hsServerPartKey : List Nat := hsServerFullKey.take 36

/-- Go's `copy(l[i:], repl)` on a destination long enough to hold `repl`. -/
def setSlice (l : List Nat) (i : Nat) (repl : List Nat) : List Nat :=
  l.take i ++ repl ++ l.drop (i + repl.length)

/-- `hsMakeDigest`: HMAC-SHA256 over `src` with the 32 bytes at `gap`
excluded when `gap > 0`.  The HMAC itself is the Go standard library's
`crypto/hmac` + `crypto/sha256` and is abstracted as the parameter `hm`
(key, then message). -/
def hsMakeDigest (hm : List Nat → List Nat → List Nat) (key src : List Nat) (gap : Int) :
    List Nat :=
  if gap ≤ 0 then hm key src
  else hm key (src.take gap.toNat ++ src.drop (gap.toNat + 32))

/-- `hsCalcDigestPos`: `(p[base] + p[base+1] + p[base+2] + p[base+3]) % 728 + base + 4`. -/
def hsCalcDigestPos (p : List Nat) (base : Nat) : Nat :=
  (p.getD base 0 + p.getD (base + 1) 0 + p.getD (base + 2) 0 + p.getD (base + 3) 0) % 728
    + base + 4

/-- `hsFindDigest`: the digest position when the 32 bytes found there match
the keyed digest of the rest, `-1` otherwise. -/
def hsFindDigest (hm : List Nat → List Nat → List Nat) (p key : List Nat) (base : Nat) :
    Int :=
  let gap := hsCalcDigestPos p base
  let digest := hsMakeDigest hm key p gap
  if (p.drop gap).take 32 = digest then (gap : Int) else -1

/-- The digest position that `hsParse1` validates: base 772 first, then
base 8 (`-1` when both fail). -/
def hsDigestPos (hm : List Nat → List Nat → List Nat) (p peerkey : List Nat) : Int :=
  let pos772 := hsFindDigest hm p peerkey 772
  if pos772 = -1 then hsFindDigest hm p peerkey 8 else pos772

/-- `hsParse1`: validate the peer's C1 and return
`HMAC(key, client digest)` on success. -/
def hsParse1 (hm : List Nat → List Nat → List Nat) (p peerkey key : List Nat) :
    Option (List Nat) :=
  let pos := hsDigestPos hm p peerkey
  if pos = -1 then none
  else some (hsMakeDigest hm key ((p.drop pos.toNat).take 32) (-1))

/-- `hsCreate01` (the 1536-byte C1/S1 part): timestamp, version, random
bytes, with the digest written over the computed digest position. -/
def hsCreate01 (hm : List Nat → List Nat → List Nat) (time ver : Nat)
    (rand1528 : List Nat) (key : List Nat) : List Nat :=
  let p1 := u32be time ++ u32be ver ++ rand1528
  let gap := hsCalcDigestPos p1 8
  let digest := hsMakeDigest hm key p1 gap
  setSlice p1 gap digest

/-- `hsCreate2`: random bytes with `HMAC(key, first len-32 bytes)` written
into the last 32 bytes. -/
def hsCreate2 (hm : List Nat → List Nat → List Nat) (rand : List Nat) (key : List Nat) :
    List Nat :=
  let gap := rand.length - 32
  let digest := hsMakeDigest hm key rand (gap : Int)
  setSlice rand gap digest

/-- `pio.U32BE(p[i:i+4])`: big-endian 32-bit read at offset `i`. -/
def u32beGet (p : List Nat) (i : Nat) : Nat :=
  p.getD i 0 * 16777216 + p.getD (i + 1) 0 * 65536 + p.getD (i + 2) 0 * 256
    + p.getD (i + 3) 0

/-- The S1/S2 bodies produced by `conn.HandshakeServer` from the received C1.
`randS1` are the 1528 random bytes drawn for S1, `randS2` the 1536 random
bytes drawn for S2.  With a nonzero client version the digest scheme runs
(`none` models the "C1 invalid" error); with a zero version the source copies
`S1` from `C1` and `S2` from the C2 buffer, which at that point still holds
its zero initialisation (`C2` is read from the peer only after S0S1S2 is
sent), so S2 is 1536 zero bytes. -/
def handshakeServer (hm : List Nat → List Nat → List Nat) (c1 randS1 randS2 : List Nat) :
    Option (List Nat × List Nat) :=
  let clitime := u32beGet c1 0
  let srvver : Nat := 219023885
  let cliver := u32beGet c1 4
  if cliver ≠ 0 then
    match hsParse1 hm c1 hsClientPartKey hsServerFullKey with
    | none => none
    | some digest =>
        some (hsCreate01 hm clitime srvver randS1 hsServerPartKey,
              hsCreate2 hm randS2 digest)
  else
    some (c1, List.replicate 1536 0)

end Streamer.rtmp

namespace Streamer.queue

/-- Modelled from the spec: `av.Packet` (spec §3) — the main A/V packet type
of the missing `media/av` packet definition; only the fields the queue
inspects are carried (`idx` int8, `data_type` the FLV tag type, `is_key_frame`,
`time` as a millisecond count, `header_begin_at`, `header_changed`, payload). -/
structure Packet where
  idx           : Int
  isKeyFrame    : Bool
  dataType      : Int
  time          : Int
  headerBeginAt : Int
  headerChanged : Bool
  data          : List Nat
  deriving Repr, DecidableEq, Inhabited

/-- `flvio.TAG_VIDEO` (spec §4.3: VIDEO = 9). -/
def TAG_VIDEO : Int := 9

/-- `flvio.TAG_AUDIO` (spec §4.3: AUDIO = 8). -/
def TAG_AUDIO : Int := 8

/-- Modelled from the spec: the ring buffer `Buf` (spec §4.6) of the missing
buffer module — virtual head/tail positions over a packet sequence; `Push`
appends at tail, `Pop` removes at head, `Get` indexes by position,
`IsValidPos pos` is `head ≤ pos < tail`.  The capacity-doubling of the
concrete ring is invisible at this level. -/
structure Buf where
  head : Int
  pkts : List Packet
  deriving Repr, DecidableEq, Inhabited

/-- Spec §4.6: `tail` is one past the newest element. -/
def Buf.Tail (b : Buf) : Int := b.head + b.pkts.length

/-- Spec §4.6: `count = tail - head`. -/
def Buf.Count (b : Buf) : Int := b.pkts.length

/-- Spec §4.6: push at tail. -/
def Buf.Push (b : Buf) (p : Packet) : Buf := { b with pkts := b.pkts ++ [p] }

/-- Spec §4.6: pop from head (the popped packet and the remaining buffer). -/
def Buf.Pop (b : Buf) : Packet × Buf :=
  (b.pkts.headD default, { head := b.head + 1, pkts := b.pkts.tail })

/-- Spec §4.6: indexing by virtual position. -/
def Buf.Get (b : Buf) (pos : Int) : Packet := b.pkts.getD (pos - b.head).toNat default

/-- Spec §4.6: a position is valid when it lies in the window. -/
def Buf.IsValidPos (b : Buf) (pos : Int) : Bool := b.head ≤ pos ∧ pos < b.Tail

/-- `Header` of the queue package: codec-data checkpoint (`Datas` abstracted
to an opaque byte list, as `avutil.ConvertHeader` is outside the queue) and
its buffer position. -/
structure Header where
  datas   : List Nat
  beginAt : Int
  deriving Repr, DecidableEq, Inhabited

/-- `Queue` of the queue package: ring buffer, headers list, video stream
index, closed flag, retention limits and running counts (all Go ints). -/
structure Queue where
  buf           : Buf
  headers       : List Header
  videoidx      : Int
  closed        : Bool
  maxGOPCount   : Int
  maxPktCount   : Int
  curGOPCount   : Int
  curVideoCount : Int
  curAudioCount : Int
  lossPktCount  : Nat
  deriving Repr, DecidableEq, Inhabited

/-- `NewQueue`: default GOP window 6, default packet window 2000,
`videoidx = -1`. -/
def NewQueue : Queue :=
  { buf := ⟨0, []⟩, headers := [], videoidx := -1, closed := false,
    maxGOPCount := 6, maxPktCount := 2000,
    curGOPCount := 0, curVideoCount := 0, curAudioCount := 0, lossPktCount := 0 }

/-- `Queue.Close`: sets `closed` and broadcasts (the broadcast has no state
content). -/
def Queue.Close (q : Queue) : Queue := { q with closed := true }

/-- The eviction loop of `Queue.WritePacket`:
`for Count > 1 && (curGOPCount >= maxGOPCount || Count >= maxPktCount)`
pop one packet, decrement the video/audio/GOP counts it contributed, and
break as soon as both limits are satisfied.  The loop pops at most
`Count - 1` packets, so the packet count is enough fuel for an exact
rendering. -/
def evict (maxG maxP : Int) :
    Nat → Buf → Int → Int → Int → Buf × Int × Int × Int
  | 0, buf, cg, cv, ca => (buf, cg, cv, ca)
  | fuel + 1, buf, cg, cv, ca =>
    if buf.Count > 1 ∧ (cg ≥ maxG ∨ buf.Count ≥ maxP) then
      let popped := buf.Pop
      let pkt := popped.1
      let buf' := popped.2
      let cv' := if pkt.dataType = TAG_VIDEO then cv - 1 else cv
      let ca' := if pkt.dataType = TAG_AUDIO then ca - 1 else ca
      let cg' := if pkt.dataType = TAG_VIDEO ∧ pkt.isKeyFrame then cg - 1 else cg
      if cg' < maxG ∧ buf'.Count < maxP then (buf', cg', cv', ca')
      else evict maxG maxP fuel buf' cg' cv' ca'
    else (buf, cg, cv, ca)

/-- The header-cleanup scan of `Queue.WritePacket`: `clearPoint` runs from the
last header index down and stops at the first (largest) index whose
`BeginAt` is at or before the new head; `-1` when every header is beyond it. -/
def clearPoint (head : Int) (headers : List Header) : Int :=
  match (List.range headers.length).reverse.find?
      (fun i => head ≥ (headers.getD i default).beginAt) with
  | some i => (i : Int)
  | none => -1

/-- The header list after `Queue.WritePacket`'s cleanup: headers strictly
before the clear point are dropped, but only when `clearPoint > 0`, so the
header immediately preceding the head is always retained. -/
def clearHeaders (head : Int) (headers : List Header) : List Header :=
  let cp := clearPoint head headers
  if cp > 0 then headers.drop cp.toNat else headers

/-- `Queue.WritePacket`: stamp the packet with the newest header position,
push it, update counts, run the eviction loop, clean the headers list.
The source never consults `closed` here. -/
def Queue.WritePacket (q : Queue) (pkt : Packet) : Queue :=
  let pkt :=
    match q.headers.getLast? with
    | some h => { pkt with headerBeginAt := h.beginAt }
    | none => pkt
  let buf1 := q.buf.Push pkt
  let cv := if pkt.dataType = TAG_VIDEO then q.curVideoCount + 1 else q.curVideoCount
  let ca := if pkt.dataType = TAG_AUDIO then q.curAudioCount + 1 else q.curAudioCount
  let cg := if pkt.dataType = TAG_VIDEO ∧ pkt.isKeyFrame then q.curGOPCount + 1
            else q.curGOPCount
  let ev := evict q.maxGOPCount q.maxPktCount buf1.pkts.length buf1 cg cv ca
  { q with
    buf := ev.1
    curGOPCount := ev.2.1
    curVideoCount := ev.2.2.1
    curAudioCount := ev.2.2.2
    headers := clearHeaders ev.1.head q.headers }

/-- Outcome of one evaluation of the body of `QueueCursor.Headers`:
end-of-stream, a wait on the queue's condition variable, or a return with
the (possibly empty) codec data. -/
inductive HeadersOutcome where
  | eof
  | blocked
  | ret (cdata : List Nat)
  deriving Repr, DecidableEq

/-- `QueueCursor.Headers` as a function of the state it reads under the
lock: EOF when the queue is closed; an immediate empty return when the
cursor has not yet tracked any header (`curHeaderBeginAt = -1`); a wait on
the condition variable while the headers list is nil; otherwise the codec
data of the first header recorded at `curHeaderBeginAt` (empty when none
matches).  A non-nil empty headers list is unreachable, so nil and empty
coincide here. -/
def cursorHeaders (closed : Bool) (headers : List Header) (curHeaderBeginAt : Int) :
    HeadersOutcome :=
  if closed then .eof
  else if curHeaderBeginAt = -1 then .ret []
  else if headers = [] then .blocked
  else
    match headers.find? (fun h => h.beginAt = curHeaderBeginAt) with
    | some h => .ret h.datas
    | none => .ret []

/-- The C1 eviction scenario's frame `k` of 180: all video, one keyframe
opening each 60-frame GOP, `time` tagging the frame number. -/
def mkFrame (k : Nat) : Packet :=
  { idx := 0, isKeyFrame := k % 60 = 0, dataType := TAG_VIDEO,
    time := k, headerBeginAt := 0, headerChanged := false, data := [] }

/-- The queue obtained by `SetMaxGopCount 2` on a fresh queue followed by
`WritePacket` of 3 GOPs of 60 frames each. -/
def scenarioQueue : Queue :=
  ((List.range 180).map mkFrame).foldl Queue.WritePacket
    { NewQueue with maxGOPCount := 2 }

end Streamer.queue

namespace Streamer.h264

open Streamer

/-- The scan of `DeEmulationPrevention`, with a step-count argument for
structural recursion: the list shrinks at every step, so any fuel at least
the list length gives the full scan. -/
def deEmuScan : Nat → List Nat → List Nat
  | _, [] => []
  | 0, l => l
  | f + 1, 0 :: 0 :: 3 :: rest => 0 :: deEmuScan f (0 :: rest)
  | f + 1, x :: rest => x :: deEmuScan f rest

/-- `DeEmulationPrevention` of ts.go: remove the `0x03` of every `00 00 03`
pattern, scanning left to right and continuing right after each removal
(hence a `03` immediately following a removed one is kept). -/
def deEmulationPrevention (l : List Nat) : List Nat := deEmuScan l.length l

/-- The eight bits of a byte, most significant first. -/
def byteBits (v : Nat) : List Bool :=
  [v / 128 % 2 = 1, v / 64 % 2 = 1, v / 32 % 2 = 1, v / 16 % 2 = 1,
   v / 8 % 2 = 1, v / 4 % 2 = 1, v / 2 % 2 = 1, v % 2 = 1]

/-- A byte string as a bit stream, as the Golomb bit reader consumes it. -/
def bytesToBits (l : List Nat) : List Bool := l.flatMap byteBits

/-- The value of a bit string read most-significant-first. -/
def bitsVal (l : List Bool) : Nat :=
  l.foldl (fun acc b => acc * 2 + (if b then 1 else 0)) 0

/-- Reader computations over the remaining bit stream; `none` is the reader's
error (end of data). -/
def P (α : Type) : Type := List Bool → Option (α × List Bool)

instance : Monad P where
  pure a := fun bs => some (a, bs)
  bind x f := fun bs =>
    match x bs with
    | none => none
    | some ar => f ar.1 ar.2

/-- Modelled from the spec: `bits.GolombBitReader.ReadBit` of the missing
`utils/bits` package — one bit as 0/1, error at end of stream. -/
def rdBit : P Nat := fun bs =>
  match bs with
  | [] => none
  | b :: rest => some (if b then 1 else 0, rest)

/-- Modelled from the spec: `bits.GolombBitReader.ReadBits n` — `n` bits as a
big-endian value. -/
def rdBits (n : Nat) : P Nat := fun bs =>
  if n ≤ bs.length then some (bitsVal (bs.take n), bs.drop n) else none

/-- Modelled from the spec: `ReadExponentialGolombCode` — the Exp-Golomb
`ue(v)` code: `z` leading zero bits, a one bit, then `z` bits `b`, decoding
to `2^z - 1 + b`. -/
def rdUe : P Nat := fun bs =>
  let z := (bs.takeWhile (fun b => !b)).length
  if z < bs.length then
    let rest := bs.drop (z + 1)
    if z ≤ rest.length then some (2 ^ z - 1 + bitsVal (rest.take z), rest.drop z)
    else none
  else none

/-- Modelled from the spec: `ReadSE` — the signed Exp-Golomb code mapped back
to the reader's Go `uint` result (negative values wrap modulo 2^64). -/
def rdSe : P Nat := fun bs =>
  match rdUe bs with
  | none => none
  | some vr =>
      some ((if vr.1 % 2 = 1 then (vr.1 + 1) / 2 else (M64 - vr.1 / 2 % M64) % M64), vr.2)

/-- `SPSInfo` of ts.go: every field the parser assigns (Go `uint` fields as
`Nat`; the `ConstraintSetFlag` and `SeqScalingListPresentFlag` slices as
lists). -/
structure SPSInfo where
  forbiddenZeroBit : Nat := 0
  nalRefIdc : Nat := 0
  nalUnitType : Nat := 0
  profileIdc : Nat := 0
  constraintSetFlag : List Nat := []
  levelIdc : Nat := 0
  seqParameterSetID : Nat := 0
  chromaFormatIdc : Nat := 0
  separateColourPlaneFlag : Nat := 0
  bitDepthLumaMinus8 : Nat := 0
  bitDepthChromaMinus8 : Nat := 0
  qpprimeYZeroTransformBypassFlag : Nat := 0
  seqScalingMatrixPresentFlag : Nat := 0
  seqScalingListPresentFlag : List Nat := []
  log2MaxFrameNumMinus4 : Nat := 0
  picOrderCntType : Nat := 0
  log2MaxPicOrderCntLsbMinus4 : Nat := 0
  deltaPicOrderAlwaysZeroFlag : Nat := 0
  offsetForNonRefPic : Nat := 0
  offsetForTopToBottomField : Nat := 0
  numRefFramesInPicOrderCntCycle : Nat := 0
  maxNumRefFrames : Nat := 0
  gapsInFrameNumValueAllowedFlag : Nat := 0
  picWidthInMbsMinus1 : Nat := 0
  picHeightInMapUnitsMinus1 : Nat := 0
  frameMbsOnlyFlag : Nat := 0
  mbAdaptiveFrameFieldFlag : Nat := 0
  direct8x8InferenceFlag : Nat := 0
  frameCroppingFlag : Nat := 0
  cropLeft : Nat := 0
  cropRight : Nat := 0
  cropTop : Nat := 0
  cropBottom : Nat := 0
  width : Nat := 0
  height : Nat := 0
  vuiParametersPresentFlag : Nat := 0
  aspectRatioInfoPresentFlag : Nat := 0
  aspectRatioIdc : Nat := 0
  sarWidth : Nat := 0
  sarHeight : Nat := 0
  overscanInfoPresentFlag : Nat := 0
  overscanAppropriateFlag : Nat := 0
  videoSignalTypePresentFlag : Nat := 0
  videoFormat : Nat := 0
  videoFullRangeFlag : Nat := 0
  colourDescriptionPresentFlag : Nat := 0
  colourPrimaries : Nat := 0
  transferCharacteristics : Nat := 0
  matrixCoefficients : Nat := 0
  chromaLocInfoPresentFlag : Nat := 0
  chromaSampleLocTypeTopField : Nat := 0
  chromaSampleLocTypeBottomField : Nat := 0
  timingInfoPresentFlag : Nat := 0
  numUnitsInTick : Nat := 0
  timeScale : Nat := 0
  fixedFrameRateFlag : Nat := 0
  fps : Nat := 0
  deriving Repr, DecidableEq

/-- The inner `sizeOfScalingList` loop of ts.go 1226-1239, carrying
`lastScale`/`nextScale` (Go uint arithmetic collapses to `% 256` here since
256 divides 2^64). -/
def scalingListRun : Nat → Nat → Nat → P Unit
  | 0, _, _ => pure ()
  | n + 1, ls, ns =>
    if ns ≠ 0 then do
      let delta ← rdSe
      let ns' := (ls + delta + 256) % 256
      let ls' := if ns' ≠ 0 then ns' else ls
      scalingListRun n ls' ns'
    else scalingListRun n ls ns

/-- The `scalingListCount` loop of ts.go 1214-1241: one present flag per
list, running the inner loop (size 16 below index 6, else 64) when set. -/
def seqScalingLoop : Nat → Nat → P (List Nat)
  | _, 0 => pure []
  | i, r + 1 => do
    let flag ← rdBit
    if flag ≠ 0 then
      do
        let _ ← scalingListRun (if i < 6 then 16 else 64) 8 8
        let rest ← seqScalingLoop (i + 1) r
        pure (flag :: rest)
    else do
      let rest ← seqScalingLoop (i + 1) r
      pure (flag :: rest)

/-- The high-profile extension block of ts.go 1172-1243 (chroma format, bit
depths, transform bypass, scaling matrices), entered only for the listed
profiles. -/
def profileExt (profileIdc : Nat) :
    P (Nat × Nat × Nat × Nat × Nat × Nat × List Nat) :=
  if profileIdc = 100 ∨ profileIdc = 110 ∨ profileIdc = 122 ∨ profileIdc = 244 ∨
     profileIdc = 44 ∨ profileIdc = 83 ∨ profileIdc = 86 ∨ profileIdc = 118 ∨
     profileIdc = 128 ∨ profileIdc = 138 ∨ profileIdc = 139 ∨ profileIdc = 134 ∨
     profileIdc = 135 then do
    let chroma ← rdUe
    let sep ← if chroma = 3 then rdBit else pure 0
    let bdl ← rdUe
    let bdc ← rdUe
    let qp ← rdBit
    let mat ← rdBit
    if mat ≠ 0 then do
      let flags ← seqScalingLoop 0 (if chroma = 3 then 12 else 8)
      pure (chroma, sep, bdl, bdc, qp, mat, flags)
    else pure (chroma, sep, bdl, bdc, qp, mat, [])
  else pure (0, 0, 0, 0, 0, 0, [])

/-- The `num_ref_frames_in_pic_order_cnt_cycle` skip loop of ts.go 1275-1280. -/
def skipSEs : Nat → P Unit
  | 0 => pure ()
  | n + 1 => do
    let _ ← rdSe
    skipSEs n

/-- The `pic_order_cnt_type` block of ts.go 1253-1281. -/
def pocPart (poc : Nat) : P (Nat × Nat × Nat × Nat × Nat) :=
  if poc = 0 then do
    let v ← rdUe
    pure (v, 0, 0, 0, 0)
  else if poc = 1 then do
    let d ← rdBit
    let o1 ← rdSe
    let o2 ← rdSe
    let n ← rdUe
    let _ ← skipSEs n
    pure (0, d, o1, o2, n)
  else pure (0, 0, 0, 0, 0)

/-- `frame_mbs_only_flag` and the conditional `mb_adaptive_frame_field_flag`
(ts.go 1304-1312). -/
def mbsPart : P (Nat × Nat) := do
  let f ← rdBit
  if f = 0 then do
    let a ← rdBit
    pure (f, a)
  else pure (f, 0)

/-- `frame_cropping_flag` and the four crop offsets (ts.go 1320-1336). -/
def cropPart : P (Nat × Nat × Nat × Nat × Nat) := do
  let f ← rdBit
  if f ≠ 0 then do
    let l ← rdUe
    let r ← rdUe
    let t ← rdUe
    let b ← rdUe
    pure (f, l, r, t, b)
  else pure (f, 0, 0, 0, 0)

end Streamer.h264

namespace Streamer.h264

/-- The VUI fields, assembled by `parseVuiParameters`. -/
structure VuiInfo where
  aspectRatioInfoPresentFlag : Nat := 0
  aspectRatioIdc : Nat := 0
  sarWidth : Nat := 0
  sarHeight : Nat := 0
  overscanInfoPresentFlag : Nat := 0
  overscanAppropriateFlag : Nat := 0
  videoSignalTypePresentFlag : Nat := 0
  videoFormat : Nat := 0
  videoFullRangeFlag : Nat := 0
  colourDescriptionPresentFlag : Nat := 0
  colourPrimaries : Nat := 0
  transferCharacteristics : Nat := 0
  matrixCoefficients : Nat := 0
  chromaLocInfoPresentFlag : Nat := 0
  chromaSampleLocTypeTopField : Nat := 0
  chromaSampleLocTypeBottomField : Nat := 0
  timingInfoPresentFlag : Nat := 0
  numUnitsInTick : Nat := 0
  timeScale : Nat := 0
  fixedFrameRateFlag : Nat := 0
  fps : Nat := 0
  deriving Repr, DecidableEq, Inhabited

/-- The aspect-ratio block of `parseVuiParameters` (ts.go 1354-1369). -/
def aspectPart : P (Nat × Nat × Nat × Nat) := do
  let f ← rdBit
  if f ≠ 0 then do
    let idc ← rdBits 8
    if idc = 255 then do
      let w ← rdBits 16
      let h ← rdBits 16
      pure (f, idc, w, h)
    else pure (f, idc, 0, 0)
  else pure (f, 0, 0, 0)

/-- The overscan block of `parseVuiParameters` (ts.go 1371-1378). -/
def overscanPart : P (Nat × Nat) := do
  let f ← rdBit
  if f ≠ 0 then do
    let a ← rdBit
    pure (f, a)
  else pure (f, 0)

/-- The video-signal-type block of `parseVuiParameters` (ts.go 1380-1404). -/
def videoSignalPart : P (Nat × Nat × Nat × Nat × Nat × Nat × Nat) := do
  let f ← rdBit
  if f ≠ 0 then do
    let vf ← rdBits 3
    let fr ← rdBit
    let cd ← rdBit
    if cd ≠ 0 then do
      let cp ← rdBits 8
      let tc ← rdBits 8
      let mc ← rdBits 8
      pure (f, vf, fr, cd, cp, tc, mc)
    else pure (f, vf, fr, cd, 0, 0, 0)
  else pure (f, 0, 0, 0, 0, 0, 0)

/-- The chroma-location block of `parseVuiParameters` (ts.go 1406-1416). -/
def chromaLocPart : P (Nat × Nat × Nat) := do
  let f ← rdBit
  if f ≠ 0 then do
    let a ← rdUe
    let b ← rdUe
    pure (f, a, b)
  else pure (f, 0, 0)

/-- The timing-info block of `parseVuiParameters` (ts.go 1418-1437): when
present with `num_units_in_tick > 0`, `FPS = TimeScale / NumUnitsInTick`
(uint division), halved when `fixed_frame_rate_flag` is set. -/
def timingPart : P (Nat × Nat × Nat × Nat × Nat) := do
  let f ← rdBit
  if f ≠ 0 then do
    let nut ← rdBits 32
    let ts ← rdBits 32
    let ffr ← rdBit
    let fps := if nut > 0 then (if ffr ≠ 0 then ts / nut / 2 else ts / nut) else 0
    pure (f, nut, ts, ffr, fps)
  else pure (f, 0, 0, 0, 0)

/-- `parseVuiParameters` of ts.go, gathering the blocks in source order. -/
def parseVui : P VuiInfo := do
  let a ← aspectPart
  let o ← overscanPart
  let v ← videoSignalPart
  let c ← chromaLocPart
  let t ← timingPart
  pure
    { aspectRatioInfoPresentFlag := a.1, aspectRatioIdc := a.2.1,
      sarWidth := a.2.2.1, sarHeight := a.2.2.2,
      overscanInfoPresentFlag := o.1, overscanAppropriateFlag := o.2,
      videoSignalTypePresentFlag := v.1, videoFormat := v.2.1,
      videoFullRangeFlag := v.2.2.1, colourDescriptionPresentFlag := v.2.2.2.1,
      colourPrimaries := v.2.2.2.2.1, transferCharacteristics := v.2.2.2.2.2.1,
      matrixCoefficients := v.2.2.2.2.2.2,
      chromaLocInfoPresentFlag := c.1, chromaSampleLocTypeTopField := c.2.1,
      chromaSampleLocTypeBottomField := c.2.2,
      timingInfoPresentFlag := t.1, numUnitsInTick := t.2.1,
      timeScale := t.2.2.1, fixedFrameRateFlag := t.2.2.2.1,
      fps := t.2.2.2.2 }

/-- Assemble the final `SPSInfo` from the parsed components; `Width` and
`Height` are the source's uint computations
`((w+1)*16) - CropLeft*2 - CropRight*2` and
`((2-FrameMbsOnly)*(h+1)*16) - CropTop*2 - CropBottom*2`. -/
def mkSPSInfo (fzb nri nut profile : Nat) (cst : List Nat) (level spsId : Nat)
    (pe : Nat × Nat × Nat × Nat × Nat × Nat × List Nat)
    (log2mfn poc : Nat) (pp : Nat × Nat × Nat × Nat × Nat)
    (mnr gaps picW picH : Nat) (mbs : Nat × Nat) (d8 : Nat)
    (crop : Nat × Nat × Nat × Nat × Nat) (vuiFlag : Nat) (vui : VuiInfo) : SPSInfo :=
  { forbiddenZeroBit := fzb, nalRefIdc := nri, nalUnitType := nut,
    profileIdc := profile, constraintSetFlag := cst, levelIdc := level,
    seqParameterSetID := spsId,
    chromaFormatIdc := pe.1, separateColourPlaneFlag := pe.2.1,
    bitDepthLumaMinus8 := pe.2.2.1, bitDepthChromaMinus8 := pe.2.2.2.1,
    qpprimeYZeroTransformBypassFlag := pe.2.2.2.2.1,
    seqScalingMatrixPresentFlag := pe.2.2.2.2.2.1,
    seqScalingListPresentFlag := pe.2.2.2.2.2.2,
    log2MaxFrameNumMinus4 := log2mfn, picOrderCntType := poc,
    log2MaxPicOrderCntLsbMinus4 := pp.1, deltaPicOrderAlwaysZeroFlag := pp.2.1,
    offsetForNonRefPic := pp.2.2.1, offsetForTopToBottomField := pp.2.2.2.1,
    numRefFramesInPicOrderCntCycle := pp.2.2.2.2,
    maxNumRefFrames := mnr, gapsInFrameNumValueAllowedFlag := gaps,
    picWidthInMbsMinus1 := picW, picHeightInMapUnitsMinus1 := picH,
    frameMbsOnlyFlag := mbs.1, mbAdaptiveFrameFieldFlag := mbs.2,
    direct8x8InferenceFlag := d8,
    frameCroppingFlag := crop.1, cropLeft := crop.2.1, cropRight := crop.2.2.1,
    cropTop := crop.2.2.2.1, cropBottom := crop.2.2.2.2,
    width := usub64 (usub64 ((picW + 1) * 16) (crop.2.1 * 2)) (crop.2.2.1 * 2),
    height := usub64 (usub64 ((2 - mbs.1) * (picH + 1) * 16) (crop.2.2.2.1 * 2))
                (crop.2.2.2.2 * 2),
    vuiParametersPresentFlag := vuiFlag,
    aspectRatioInfoPresentFlag := vui.aspectRatioInfoPresentFlag,
    aspectRatioIdc := vui.aspectRatioIdc,
    sarWidth := vui.sarWidth, sarHeight := vui.sarHeight,
    overscanInfoPresentFlag := vui.overscanInfoPresentFlag,
    overscanAppropriateFlag := vui.overscanAppropriateFlag,
    videoSignalTypePresentFlag := vui.videoSignalTypePresentFlag,
    videoFormat := vui.videoFormat, videoFullRangeFlag := vui.videoFullRangeFlag,
    colourDescriptionPresentFlag := vui.colourDescriptionPresentFlag,
    colourPrimaries := vui.colourPrimaries,
    transferCharacteristics := vui.transferCharacteristics,
    matrixCoefficients := vui.matrixCoefficients,
    chromaLocInfoPresentFlag := vui.chromaLocInfoPresentFlag,
    chromaSampleLocTypeTopField := vui.chromaSampleLocTypeTopField,
    chromaSampleLocTypeBottomField := vui.chromaSampleLocTypeBottomField,
    timingInfoPresentFlag := vui.timingInfoPresentFlag,
    numUnitsInTick := vui.numUnitsInTick, timeScale := vui.timeScale,
    fixedFrameRateFlag := vui.fixedFrameRateFlag, fps := vui.fps }

/-- The optional VUI tail of `ParseSPS` (ts.go 1345-1347): parsed only when
`vui_parameters_present_flag` is set, else all VUI fields stay zero. -/
def vuiPart (vuiFlag : Nat) : P VuiInfo :=
  if vuiFlag ≠ 0 then parseVui else pure {}

/-- The six constraint-set flags (ts.go 1150-1156). -/
def constraintPart : P (List Nat) := do
  let c0 ← rdBit
  let c1 ← rdBit
  let c2 ← rdBit
  let c3 ← rdBit
  let c4 ← rdBit
  let c5 ← rdBit
  pure [c0, c1, c2, c3, c4, c5]

/-- The body of `ParseSPS` over the de-escaped bit stream, in source order
(ts.go 1130-1349). -/
def spsTop : P SPSInfo := do
  let fzb ← rdBit
  let nri ← rdBits 2
  let nut ← rdBits 5
  let profile ← rdBits 8
  let cst ← constraintPart
  let _ ← rdBits 2
  let level ← rdBits 8
  let spsId ← rdUe
  let pe ← profileExt profile
  let log2mfn ← rdUe
  let poc ← rdUe
  let pp ← pocPart poc
  let mnr ← rdUe
  let gaps ← rdBit
  let picW ← rdUe
  let picH ← rdUe
  let mbs ← mbsPart
  let d8 ← rdBit
  let crop ← cropPart
  let vuiFlag ← rdBit
  let vui ← vuiPart vuiFlag
  pure (mkSPSInfo fzb nri nut profile cst level spsId pe log2mfn poc pp mnr gaps
    picW picH mbs d8 crop vuiFlag vui)

/-- `ParseSPS` of ts.go: de-escape the emulation-prevention bytes, then run
the Exp-Golomb parse; `none` is the error return. -/
def ParseSPS (data : List Nat) : Option SPSInfo :=
  match spsTop (bytesToBits (deEmulationPrevention data)) with
  | some sr => some sr.1
  | none => none

/-- `PPSInfo` of ts.go: every field `ParsePPS` assigns. -/
structure PPSInfo where
  forbiddenZeroBit : Nat := 0
  nalRefIdc : Nat := 0
  nalUnitType : Nat := 0
  picParameterSetID : Nat := 0
  seqParameterSetID : Nat := 0
  entropyCodingModeFlag : Nat := 0
  picOrderPresentFlag : Nat := 0
  numSliceGroupsMinus1 : Nat := 0
  sliceGroupMapType : Nat := 0
  runLengthMinus1 : List Nat := []
  topLeft : List Nat := []
  bottomRight : List Nat := []
  sliceGroupChangeDirectionFlag : Nat := 0
  sliceGroupChangeRateMinus1 : Nat := 0
  picSizeInMapUnitsMinus1 : Nat := 0
  sliceGroupID : List Nat := []
  numRefIdxL0ActiveMinus1 : Nat := 0
  numRefIdxL1ActiveMinus1 : Nat := 0
  weightedPredFlag : Nat := 0
  weightedBipredIdc : Nat := 0
  picInitQpMinus26 : Nat := 0
  picInitQsMinus26 : Nat := 0
  chromaQpIndexOffset : Nat := 0
  deblockingFilterControlPresentFlag : Nat := 0
  constrainedIntraPredFlag : Nat := 0
  redundantPicCntPresnetFlag : Nat := 0
  deriving Repr, DecidableEq

/-- `n` successive `ue(v)` reads (the `run_length_minus1` loop of ts.go
1483-1487). -/
def rdUeList : Nat → P (List Nat)
  | 0 => pure []
  | n + 1 => do
    let v ← rdUe
    let rest ← rdUeList n
    pure (v :: rest)

/-- `n` successive `ue(v)` pairs (the `top_left`/`bottom_right` loop of
ts.go 1491-1498). -/
def rdUePairs : Nat → P (List Nat × List Nat)
  | 0 => pure ([], [])
  | n + 1 => do
    let a ← rdUe
    let b ← rdUe
    let rest ← rdUePairs n
    pure (a :: rest.1, b :: rest.2)

/-- `n` successive fixed-width reads (the `slice_group_id` loop of ts.go
1512-1516). -/
def rdBitsList : Nat → Nat → P (List Nat)
  | 0, _ => pure []
  | n + 1, w => do
    let x ← rdBits w
    let rest ← rdBitsList n w
    pure (x :: rest)

/-- The slice-group block of `ParsePPS` (ts.go 1477-1518), entered when
`num_slice_groups_minus1 > 0`; returns `(slice_group_map_type,
run_length_minus1, top_left, bottom_right, change_direction_flag,
change_rate_minus1, pic_size_in_map_units_minus1, slice_group_id)`.  The
source computes the id width as `int(math.Log2(float64(n+1)))`, which is
`Nat.log2 (n+1)` for every count a real stream can carry. -/
def sliceGroupPart (n : Nat) :
    P (Nat × List Nat × List Nat × List Nat × Nat × Nat × Nat × List Nat) :=
  if n > 0 then do
    let smt ← rdUe
    if smt = 0 then do
      let rl ← rdUeList (n + 1)
      pure (smt, rl, [], [], 0, 0, 0, [])
    else if smt = 2 then do
      let p ← rdUePairs n
      pure (smt, [], p.1, p.2, 0, 0, 0, [])
    else if smt = 3 ∨ smt = 4 ∨ smt = 5 then do
      let d ← rdBit
      let r ← rdUe
      pure (smt, [], [], [], d, r, 0, [])
    else if smt = 6 then do
      let ps ← rdUe
      let ids ← rdBitsList (ps + 1) (Nat.log2 (n + 1))
      pure (smt, [], [], [], 0, 0, ps, ids)
    else pure (smt, [], [], [], 0, 0, 0, [])
  else pure (0, [], [], [], 0, 0, 0, [])

/-- The body of `ParsePPS` over the de-escaped bit stream, in source order
(ts.go 1445-1552). -/
def ppsTop : P PPSInfo := do
  let fzb ← rdBit
  let nri ← rdBits 2
  let nut ← rdBits 5
  let ppsId ← rdUe
  let spsId ← rdUe
  let ent ← rdBit
  let pop ← rdBit
  let nsg ← rdUe
  let sg ← sliceGroupPart nsg
  let l0 ← rdUe
  let l1 ← rdUe
  let wp ← rdBit
  let wb ← rdBits 2
  let qp ← rdSe
  let qs ← rdSe
  let cqp ← rdSe
  let dbf ← rdBit
  let cip ← rdBit
  let rpc ← rdBit
  pure
    { forbiddenZeroBit := fzb, nalRefIdc := nri, nalUnitType := nut,
      picParameterSetID := ppsId, seqParameterSetID := spsId,
      entropyCodingModeFlag := ent, picOrderPresentFlag := pop,
      numSliceGroupsMinus1 := nsg,
      sliceGroupMapType := sg.1, runLengthMinus1 := sg.2.1,
      topLeft := sg.2.2.1, bottomRight := sg.2.2.2.1,
      sliceGroupChangeDirectionFlag := sg.2.2.2.2.1,
      sliceGroupChangeRateMinus1 := sg.2.2.2.2.2.1,
      picSizeInMapUnitsMinus1 := sg.2.2.2.2.2.2.1,
      sliceGroupID := sg.2.2.2.2.2.2.2,
      numRefIdxL0ActiveMinus1 := l0, numRefIdxL1ActiveMinus1 := l1,
      weightedPredFlag := wp, weightedBipredIdc := wb,
      picInitQpMinus26 := qp, picInitQsMinus26 := qs,
      chromaQpIndexOffset := cqp,
      deblockingFilterControlPresentFlag := dbf,
      constrainedIntraPredFlag := cip,
      redundantPicCntPresnetFlag := rpc }

/-- `ParsePPS` of ts.go: de-escape the emulation-prevention bytes, then run
the Exp-Golomb parse; `none` is the error return. -/
def ParsePPS (data : List Nat) : Option PPSInfo :=
  match ppsTop (bytesToBits (deEmulationPrevention data)) with
  | some pr => some pr.1
  | none => none

end Streamer.h264

namespace Streamer.ts

open Streamer

/-- `h264parser.NALU_SPS`. -/
def NALU_SPS : Nat := 7

/-- `h264parser.NALU_PPS`. -/
def NALU_PPS : Nat := 8

/-- `h264parser.IsDataNALU`: the NALU type (low five bits of the first byte)
lies in 1..5. -/
def IsDataNALU (b : List Nat) : Bool := 1 ≤ b.headD 0 % 32 ∧ b.headD 0 % 32 ≤ 5

/-- Persistent per-stream state of the TS demuxer's H.264 stream: the last
stored SPS and PPS (`self.sps`, `self.pps`, nil before first seen) and the
codec record.  `h264parser.NewCodecDataFromSPSAndPPS` builds the record from
`self.sps`/`self.pps`; the record is abstracted to that pair. -/
structure StreamH where
  sps   : Option (List Nat)
  pps   : Option (List Nat)
  codec : Option (List Nat × List Nat)
  deriving Repr, DecidableEq

/-- `Stream.updateAvcCodec`: rebuild the codec record from the stored SPS and
PPS via `h264parser.NewCodecDataFromSPSAndPPS`, which errors when the SPS is
shorter than 4 bytes (`ErrDecconfInvalid`), when `ParseSPS` fails, or when
`ParsePPS` fails; `none` is that error return, which `payloadEnd` propagates
without emitting. -/
def updateAvcCodec (st : StreamH) : Option StreamH :=
  let sps := st.sps.getD []
  let pps := st.pps.getD []
  if sps.length < 4 then none
  else
    match h264.ParseSPS sps with
    | none => none
    | some _ =>
      match h264.ParsePPS pps with
      | none => none
      | some _ => some { st with codec := some (sps, pps) }

/-- The local variables of one `payloadEnd` H.264 flush: the persistent
stream state, the `sps`/`pps` locals (last parameter sets seen in this
flush), and the `spsChange`/`ppsChange` flags. -/
structure FlushState where
  st        : StreamH
  localSps  : List Nat
  localPps  : List Nat
  spsChange : Nat
  ppsChange : Nat
  deriving Repr, DecidableEq

/-- A video packet emitted by the flush: its `HeaderChanged` flag and its
AVCC payload. -/
structure VPkt where
  headerChanged : Bool
  data          : List Nat
  deriving Repr, DecidableEq

/-- One iteration of the `payloadEnd` H.264 loop (ts.go 492-530): an SPS NALU
sets `spsChange` when a previous SPS exists and differs byte-wise; a PPS NALU
likewise; a data NALU is wrapped into a 4-byte length prefix and emitted with
`headerChanged = true` exactly when both flags are set, in which case the
codec record is rebuilt and the flags reset — unless the rebuild errors, in
which case `payloadEnd` returns the error before `addPacket` (modelled as
`none`: the iteration emits nothing and the flush aborts); a lone flag only
logs. -/
def processNALU (s : FlushState) (nalu : List Nat) : Option (FlushState × Option VPkt) :=
  if nalu.length > 0 then
    let naltype := nalu.headD 0 % 32
    if naltype = NALU_SPS then
      let s := { s with localSps := nalu }
      if s.st.sps ≠ none ∧ s.st.sps ≠ some nalu then
        some ({ s with spsChange := 1, st := { s.st with sps := some nalu } }, none)
      else some (s, none)
    else if naltype = NALU_PPS then
      let s := { s with localPps := nalu }
      if s.st.pps ≠ none ∧ s.st.pps ≠ some nalu then
        some ({ s with ppsChange := 1, st := { s.st with pps := some nalu } }, none)
      else some (s, none)
    else if IsDataNALU nalu then
      let b := u32be (nalu.length % M32) ++ nalu
      if s.ppsChange ≠ 0 ∧ s.spsChange ≠ 0 then
        match updateAvcCodec s.st with
        | none => none
        | some st' =>
          some ({ s with st := st', ppsChange := 0, spsChange := 0 },
                some ⟨true, b⟩)
      else some (s, some ⟨false, b⟩)
    else some (s, none)
  else some (s, none)

/-- The NALU loop of the flush: runs `processNALU` left to right, collecting
emitted packets; an `updateAvcCodec` error stops the loop (packets already
handed to `addPacket` stay emitted, as in the source). -/
def flushLoop : FlushState → List (List Nat) → List VPkt × Option FlushState
  | s, [] => ([], some s)
  | s, nalu :: rest =>
    match processNALU s nalu with
    | none => ([], none)
    | some sp =>
      let tail := flushLoop sp.1 rest
      (sp.2.toList ++ tail.1, tail.2)

/-- The H.264 arm of `Stream.payloadEnd` over the NALUs split from the PES
payload (``h264parser.SplitNALUs``): run the loop, then run the trailing
first-time codec initialisation when no record exists yet and both an SPS
and a PPS were seen in this flush.  The result pairs the emitted packets
with the final stream state, `none` when the flush returned an error. -/
def payloadEndH264 (st : StreamH) (nalus : List (List Nat)) :
    List VPkt × Option StreamH :=
  let res := flushLoop ⟨st, [], [], 0, 0⟩ nalus
  match res.2 with
  | none => (res.1, none)
  | some s =>
    if s.st.codec = none ∧ s.localSps.length > 0 ∧ s.localPps.length > 0 then
      match updateAvcCodec { s.st with sps := some s.localSps, pps := some s.localPps } with
      | none => (res.1, none)
      | some st' => (res.1, some st')
    else (res.1, some s.st)

end Streamer.ts

namespace Streamer

/-- A concrete stand-in for HMAC-SHA256 used to instantiate the handshake
theorems on explicit inputs: 32 bytes all equal to the byte sum of key and
message.  (Only its 32-byte output length matters to the theorems.) -/
def hmTest (key msg : List Nat) : List Nat :=
  List.replicate 32 ((key.sum + msg.sum) % 256)

/-- A C1 with zero version bytes (4..7) but a nonzero leading byte, for the
echo-handshake branch. -/
def c1Echo : List Nat := 7 :: List.replicate 1535 0

/-- The digest byte that makes `c1w` validate under `hmTest`: the sum of the
30-byte client key plus the single nonzero (version) byte of `c1w`. -/
def dW : Nat := (rtmp.hsClientPartKey.sum + 1) % 256

/-- A C1 that the digest handshake accepts under `hmTest`: zeros, version
field `00 00 00 01`, and a valid 32-byte digest at the base-772 position
(the zero bytes at 772..775 place it at offset 776). -/
def c1w : List Nat :=
  rtmp.setSlice (rtmp.setSlice (List.replicate 1536 0) 4 [0, 0, 0, 1]) 776
    (List.replicate 32 dW)

/-- Fixed random bytes for the S1 body in the witness run. -/
def r1Test : List Nat := List.replicate 1528 0

/-- Fixed random bytes for the S2 body in the witness run. -/
def r2Test : List Nat := List.replicate 1536 0

/-- The witness handshake run. -/
def hsRunTest : Option (List Nat × List Nat) :=
  rtmp.handshakeServer hmTest c1w r1Test r2Test

/-- The S1 of the witness run. -/
def s1Test : List Nat := (hsRunTest.getD ([], [])).1

/-- The S2 of the witness run. -/
def s2Test : List Nat := (hsRunTest.getD ([], [])).2

/-- A concrete SPS NALU (baseline profile, 640x360, 30 fps VUI timing) used
to instantiate the SPS-parser theorem. -/
def spsTestBytes : List Nat :=
  [103, 66, 0, 30, 218, 2, 128, 191, 229, 132, 0, 0, 0, 4, 0, 0, 0, 242]

/-- The parse of `spsTestBytes`. -/
def spsTestVal : h264.SPSInfo := (h264.ParseSPS spsTestBytes).getD {}

end Streamer

namespace Streamer

open Streamer.slice Streamer.hls Streamer.rtmp Streamer.queue Streamer.ts Streamer.h264

/-- C10: for every slice packet with `Size < 4096`, `SliceType < 16`,
`PosFlag < 4`, `FrameType < 4` and `ExtendFlag ≤ 1` (and field values inside
their Go machine types), `ParseSliceHeader` applied to the 15-byte output of
`makeSliceHeader` returns a packet with the same `Size`, `SliceType`,
`SliceId`, `FrameId`, `PosFlag`, `FrameType` and `ExtendFlag`, and
`Reserved = 0`. -/
theorem sliceHeader_roundtrip (p : slice.Packet)
    (hsz : p.size < 4096) (hst : p.sliceType < 16)
    (hpf : p.posFlag < 4) (hft : p.frameType < 4) (hef : p.extendFlag ≤ 1)
    (hid : p.sliceId < 18446744073709551616) (hfr : p.frameId < 4294967296) :
    (slice.makeSliceHeader p).length = 15 ∧
    (slice.ParseSliceHeader (slice.makeSliceHeader p)).1.size = p.size ∧
    (slice.ParseSliceHeader (slice.makeSliceHeader p)).1.sliceType = p.sliceType ∧
    (slice.ParseSliceHeader (slice.makeSliceHeader p)).1.sliceId = p.sliceId ∧
    (slice.ParseSliceHeader (slice.makeSliceHeader p)).1.frameId = p.frameId ∧
    (slice.ParseSliceHeader (slice.makeSliceHeader p)).1.posFlag = p.posFlag ∧
    (slice.ParseSliceHeader (slice.makeSliceHeader p)).1.frameType = p.frameType ∧
    (slice.ParseSliceHeader (slice.makeSliceHeader p)).1.extendFlag = p.extendFlag ∧
    (slice.ParseSliceHeader (slice.makeSliceHeader p)).1.reserved = 0 := by
  refine ⟨?_, ?_, ?_, ?_, ?_, ?_, ?_, ?_, ?_⟩ <;>
    simp only [slice.makeSliceHeader, slice.ParseSliceHeader, u16be, u64be, u32be,
      bytesToUint16, bytesToUint64, bytesToUint32, M16, List.cons_append,
      List.nil_append, List.take, List.drop, List.getD, List.length, List.get?,
      List.getElem?_cons_zero, List.getElem?_cons_succ, Option.getD_some,
      Option.getD_none] <;>
    first
      | rfl
      | omega

/-- C10 witness: the round-trip at a concrete slice packet. -/
theorem sliceHeader_roundtrip_witness :
    (slice.ParseSliceHeader (slice.makeSliceHeader
      ⟨100, 3, 7700000001, 42, 1, 2, 0, 1, []⟩)).1.sliceId = 7700000001 :=
  (sliceHeader_roundtrip ⟨100, 3, 7700000001, 42, 1, 2, 0, 1, []⟩
    (by decide) (by decide) (by decide) (by decide) (by decide)
    (by decide) (by decide)).2.2.2.1

end Streamer

namespace Streamer

/-- The `maxDuration` component of the playlist fold is an ordinary maximum
fold. -/
theorem foldl_genStep_maxDuration (l : List hls.TSItem) (s : hls.GenState) :
    (l.foldl hls.genStep s).maxDuration =
      l.foldl (fun a v => if v.duration > a then v.duration else a) s.maxDuration := by
  induction l generalizing s with
  | nil => rfl
  | cons x xs ih => simp [List.foldl, hls.genStep, ih]

/-- The source's `if v.Duration > maxDuration` update is `max`. -/
theorem if_gt_eq_max (a b : Int) : (if b > a then b else a) = max a b := by
  rcases le_or_lt b a with h | h
  · simp [not_lt.mpr h, max_eq_left h]
  · simp [h, max_eq_right h.le]

/-- C9 counterexample: a cache whose only listed segment lasts 1500 ms
produces `#EXT-X-TARGETDURATION:2`, while `ceil(1500/1000) + 1 = 3`. -/
theorem m3u8_targetduration_cex :
    (hls.genM3U8PlayList [⟨"a.ts", 5, 1000⟩, ⟨"b.ts", 6, 1500⟩]).targetDuration = 2 ∧
    (hls.genM3U8PlayList [⟨"a.ts", 5, 1000⟩, ⟨"b.ts", 6, 1500⟩]).entries =
      [(1500, "b.ts")] ∧
    ((1500 + 999) / 1000 + 1 : Nat) = 3 ∧ (2 : Int) ≠ 3 := by
  refine ⟨rfl, rfl, rfl, by decide⟩

/-- C9 amended: the `#EXT-X-TARGETDURATION` field of a generated playlist is
`floor(max_ts_ms / 1000) + 1` over the listed segments (Go integer division
truncates; it is not a ceiling). -/
theorem m3u8_targetduration_floor (items : List hls.TSItem) :
    (hls.genM3U8PlayList items).targetDuration =
      (((items.drop 1).map hls.TSItem.duration).foldl max 0).tdiv 1000 + 1 := by
  show (((items.drop 1).foldl hls.genStep ⟨0, false, 0, []⟩).maxDuration).tdiv 1000 + 1 = _
  rw [foldl_genStep_maxDuration, List.foldl_map]
  have hfun : (fun a (v : hls.TSItem) => if v.duration > a then v.duration else a)
      = fun a v => max a v.duration :=
    funext fun a => funext fun v => if_gt_eq_max a v.duration
  rw [hfun]

end Streamer

namespace Streamer

/-- C5: for every non-negative int32 timestamp `t` filled into an outgoing
chunk header, the 24-bit timestamp field equals `t` when `t ≤ 0xFFFFFF`, and
equals `0xFFFFFF` with a big-endian 4-byte extended timestamp carrying `t`
appended after the 12-byte header when `t > 0xFFFFFF`; the switch to the
extended form happens exactly at `t = 0xFFFFFF + 1`. -/
theorem fillChunkHeader_timestamp (csid : Nat) (t : Int) (mt ms ml : Nat)
    (h0 : 0 ≤ t) (h1 : t < 2147483648) :
    (t ≤ 16777215 →
      ((rtmp.fillChunkHeader csid t mt ms ml).drop 1).take 3 = u24be t.toNat ∧
      (rtmp.fillChunkHeader csid t mt ms ml).length = 12) ∧
    (16777215 < t →
      ((rtmp.fillChunkHeader csid t mt ms ml).drop 1).take 3 = u24be 16777215 ∧
      (rtmp.fillChunkHeader csid t mt ms ml).length = 16 ∧
      (rtmp.fillChunkHeader csid t mt ms ml).drop 12 = u32be t.toNat) ∧
    ((rtmp.fillChunkHeader csid t mt ms ml).length = 16 ↔ 16777216 ≤ t) := by
  have hcast : rtmp.u32ofI32 t = t.toNat := by
    unfold rtmp.u32ofI32
    rw [Int.emod_eq_of_lt h0 (by omega)]
  simp only [rtmp.fillChunkHeader, rtmp.FlvTimestampMax, hcast]
  by_cases hle : t ≤ 16777215
  · have hn : t.toNat ≤ 16777215 := by omega
    have hn' : ¬ (16777215 < t.toNat) := by omega
    simp only [hn, hn', if_true, if_false, ite_true, ite_false]
    refine ⟨fun _ => ⟨rfl, by simp [u24be, u32le]⟩,
            fun hgt => absurd hgt (not_lt.mpr hle), ?_⟩
    simp only [u24be, u32le]
    constructor
    · intro hlen
      simp at hlen
    · intro hge
      omega
  · have hn : ¬ (t.toNat ≤ 16777215) := by omega
    have hn' : 16777215 < t.toNat := by omega
    simp only [hn, hn', if_true, if_false, ite_true, ite_false]
    refine ⟨fun hle2 => absurd hle2 hle, fun _ => ⟨rfl, ?_, ?_⟩, ?_⟩
    · simp [u24be, u32be, u32le]
    · simp [u24be, u32be, u32le, List.drop]
    · simp only [u24be, u32be, u32le]
      constructor
      · intro _
        omega
      · intro _
        simp

/-- C5 witness: the boundary pair `t = 0xFFFFFF` (plain 12-byte header) and
`t = 0xFFFFFF + 1` (extended form, big-endian extension `01 00 00 00`). -/
theorem fillChunkHeader_timestamp_witness :
    (rtmp.fillChunkHeader 7 16777215 9 1 100).length = 12 ∧
    (rtmp.fillChunkHeader 7 16777216 9 1 100).length = 16 ∧
    (rtmp.fillChunkHeader 7 16777216 9 1 100).drop 12 = u32be 16777216 :=
  ⟨((fillChunkHeader_timestamp 7 16777215 9 1 100 (by decide) (by decide)).1
      (by decide)).2,
   ((fillChunkHeader_timestamp 7 16777216 9 1 100 (by decide) (by decide)).2.1
      (by decide)).2.1,
   by
     have h := ((fillChunkHeader_timestamp 7 16777216 9 1 100 (by decide)
       (by decide)).2.1 (by decide)).2.2
     simpa using h⟩

end Streamer

namespace Streamer

/-- C6 counterexample: on a freshly closed queue, a `WritePacket` of a video
keyframe is not a no-op — the tail advances from 0 to 1 and the video and
GOP counts increase. -/
theorem writePacket_after_close_cex :
    (queue.NewQueue.Close.WritePacket (queue.mkFrame 0)).buf.Tail = 1 ∧
    queue.NewQueue.Close.buf.Tail = 0 ∧
    queue.NewQueue.Close.closed = true ∧
    (queue.NewQueue.Close.WritePacket (queue.mkFrame 0)).curVideoCount = 1 ∧
    (queue.NewQueue.Close.WritePacket (queue.mkFrame 0)).curGOPCount = 1 ∧
    queue.NewQueue.Close.curVideoCount = 0 := by
  refine ⟨rfl, rfl, rfl, rfl, rfl, rfl⟩

/-- C6 amended: `WritePacket` never consults the closed flag — after `Close`
it updates the queue exactly as it would have before `Close` (closing only
affects the read side), so writes after `Close` are not no-ops. -/
theorem writePacket_ignores_closed (q : queue.Queue) (pkt : queue.Packet) :
    (q.Close.WritePacket pkt) = (q.WritePacket pkt).Close := rfl

/-- C7 counterexample: a cursor that has not yet tracked a header
(`curHeaderBeginAt = -1`) returns immediately with no data on an open queue
with no headers, instead of blocking until a header exists or the queue
closes. -/
theorem cursor_headers_noblock_cex :
    queue.cursorHeaders false [] (-1) = queue.HeadersOutcome.ret [] ∧
    queue.cursorHeaders false [] (-1) ≠ queue.HeadersOutcome.blocked ∧
    queue.cursorHeaders false [] (-1) ≠ queue.HeadersOutcome.eof := by
  refine ⟨rfl, by decide, by decide⟩

/-- C7 amended: `QueueCursor.Headers` reports end-of-stream exactly when the
queue is closed; on an open queue it returns immediately with no data when
the cursor has not yet tracked a header (`curHeaderBeginAt = -1`); otherwise
it waits on the condition variable while no header exists, and once headers
exist it returns the codec data of the first header recorded at
`curHeaderBeginAt` (no data when none matches). -/
theorem cursor_headers_behavior (closed : Bool) (headers : List queue.Header)
    (cur : Int) :
    (queue.cursorHeaders closed headers cur = .eof ↔ closed = true) ∧
    (closed = false → cur = -1 →
      queue.cursorHeaders closed headers cur = .ret []) ∧
    (closed = false → cur ≠ -1 → headers = [] →
      queue.cursorHeaders closed headers cur = .blocked) ∧
    (closed = false → cur ≠ -1 → headers ≠ [] →
      queue.cursorHeaders closed headers cur =
        .ret (match headers.find? (fun h => h.beginAt = cur) with
              | some h => h.datas
              | none => [])) := by
  unfold queue.cursorHeaders
  refine ⟨?_, ?_, ?_, ?_⟩
  · cases closed with
    | true => simp
    | false =>
      simp only [Bool.false_eq_true, if_false, iff_false]
      split
      · simp
      · split
        · simp
        · split <;> simp
  · intro hc hcur
    subst hc hcur
    simp
  · intro hc hcur hh
    subst hc hh
    simp [hcur]
  · intro hc hcur hh
    subst hc
    simp only [Bool.false_eq_true, if_false, hcur, hh, ite_false]
    split <;> simp_all

/-- C7 amended witness: the behaviour at concrete states — a closed queue
yields EOF; an open queue with a header at position 3 and a cursor there
yields that header's data; an open queue with no headers and a tracking
cursor blocks. -/
theorem cursor_headers_behavior_witness :
    queue.cursorHeaders true [] 0 = .eof ∧
    queue.cursorHeaders false [⟨[1, 2], 3⟩] 3 = .ret [1, 2] ∧
    queue.cursorHeaders false [] 3 = .blocked :=
  ⟨((cursor_headers_behavior true [] 0).1).mpr rfl,
   by
     have h := (cursor_headers_behavior false [⟨[1, 2], 3⟩] 3).2.2.2 rfl
       (by decide) (by decide)
     simpa using h,
   (cursor_headers_behavior false [] 3).2.2.1 rfl (by decide) rfl⟩

end Streamer

namespace Streamer

set_option maxRecDepth 100000 in
/-- C1 counterexample: with `max_gop_count = 2`, after pushing 3 GOPs of 60
frames (one keyframe each, frames numbered by `time`), the buffer does not
hold frames 60–179: the head sits at position 61, the packet there is a
non-key video frame, and its GOP-opening keyframe (frame 60) has been
evicted from the buffer. -/
theorem queue_gop_eviction_cex :
    queue.scenarioQueue.buf.head = 61 ∧
    (queue.scenarioQueue.buf.Get queue.scenarioQueue.buf.head).isKeyFrame = false ∧
    (queue.scenarioQueue.buf.Get queue.scenarioQueue.buf.head).dataType =
      queue.TAG_VIDEO ∧
    (queue.scenarioQueue.buf.pkts.all (fun p => p.time ≠ 60)) = true ∧
    queue.scenarioQueue.buf.pkts.map queue.Packet.time ≠
      (List.range 120).map (fun k => (60 + k : Int)) := by
  refine ⟨rfl, rfl, rfl, by decide, by decide⟩

set_option maxRecDepth 100000 in
/-- C1 amended: the eviction loop pops from the head until the GOP count
drops below `max_gop_count`, which removes the oldest GOP's keyframe and
stops, leaving that GOP's remaining non-key frames at the head.  In the
scenario (`max_gop_count = 2`, 3 GOPs of 60 frames) the buffer ends holding
exactly frames 61–179 (119 packets), the head packet is the first frame
after the second GOP's keyframe — a non-key frame whose keyframe has been
evicted — and a single keyframe (frame 120) remains. -/
theorem queue_gop_eviction_scenario :
    queue.scenarioQueue.buf.pkts.map queue.Packet.time =
      (List.range 119).map (fun k => (61 + k : Int)) ∧
    queue.scenarioQueue.buf.head = 61 ∧
    queue.scenarioQueue.buf.Tail = 180 ∧
    (queue.scenarioQueue.buf.Get 61).isKeyFrame = false ∧
    queue.scenarioQueue.curGOPCount = 1 ∧
    (queue.scenarioQueue.buf.pkts.countP (fun p => p.isKeyFrame)) = 1 := by
  refine ⟨by decide, rfl, rfl, rfl, rfl, by decide⟩

end Streamer

namespace Streamer

set_option maxRecDepth 100000 in
/-- C3 counterexample: for a C1 with zero version but a nonzero first byte,
the server echoes S1 = C1 but sends 1536 zero bytes as S2 (the stale, not
yet received C2 buffer), so S2 ≠ C1. -/
theorem handshake_echo_cex :
    rtmp.u32beGet c1Echo 4 = 0 ∧
    rtmp.handshakeServer hmTest c1Echo r1Test r2Test =
      some (c1Echo, List.replicate 1536 0) ∧
    List.replicate 1536 0 ≠ c1Echo := by
  refine ⟨rfl, rfl, by decide⟩

/-- C3 amended: when the client C1's version field (bytes 4..7) is zero, the
server echoes S1 = C1 but S2 is the prior content of the C2 buffer — 1536
zero bytes — because C2 is read from the peer only after S0S1S2 is sent. -/
theorem handshake_echo (hm : List Nat → List Nat → List Nat)
    (c1 r1 r2 : List Nat) (h : rtmp.u32beGet c1 4 = 0) :
    rtmp.handshakeServer hm c1 r1 r2 = some (c1, List.replicate 1536 0) := by
  have hcond : ¬ (rtmp.u32beGet c1 4 ≠ 0) := fun hne => hne h
  simp only [rtmp.handshakeServer]
  rw [if_neg hcond]

set_option maxRecDepth 100000 in
/-- C3 amended witness: the echo branch at the concrete `c1Echo`. -/
theorem handshake_echo_witness :
    rtmp.handshakeServer hmTest c1Echo r1Test r2Test =
      some (c1Echo, List.replicate 1536 0) :=
  handshake_echo hmTest c1Echo r1Test r2Test (by decide)

end Streamer

namespace Streamer

/-- `hsMakeDigest` with gap `-1` is a plain HMAC over the whole source. -/
theorem hsMakeDigest_neg (hm : List Nat → List Nat → List Nat) (k s : List Nat) :
    rtmp.hsMakeDigest hm k s (-1) = hm k s := by
  unfold rtmp.hsMakeDigest
  rw [if_pos (by decide : (-1 : Int) ≤ 0)]

/-- `hsParse1` succeeds with `HMAC(key, the 32 digest bytes at the validated
position)` when the digest position is found. -/
theorem hsParse1_eq_some (hm : List Nat → List Nat → List Nat)
    (p peerkey key : List Nat) (pos : Int)
    (hpos : rtmp.hsDigestPos hm p peerkey = pos) (hneg : pos ≠ -1) :
    rtmp.hsParse1 hm p peerkey key = some (hm key ((p.drop pos.toNat).take 32)) := by
  simp only [rtmp.hsParse1]
  rw [hpos, if_neg hneg, hsMakeDigest_neg]

/-- The digest-scheme output of `HandshakeServer` when C1 validates. -/
theorem handshakeServer_digest_eq (hm : List Nat → List Nat → List Nat)
    (c1 r1 r2 d : List Nat) (hv : rtmp.u32beGet c1 4 ≠ 0)
    (hp : rtmp.hsParse1 hm c1 rtmp.hsClientPartKey rtmp.hsServerFullKey = some d) :
    rtmp.handshakeServer hm c1 r1 r2 =
      some (rtmp.hsCreate01 hm (rtmp.u32beGet c1 0) 219023885 r1 rtmp.hsServerPartKey,
            rtmp.hsCreate2 hm r2 d) := by
  simp only [rtmp.handshakeServer]
  rw [if_pos hv, hp]

/-- `hsCreate2` on a 1536-byte buffer keeps the first 1504 bytes and writes
`HMAC(key, first 1504 bytes)` into the last 32. -/
theorem hsCreate2_spec (hm : List Nat → List Nat → List Nat)
    (hlen : ∀ k m, (hm k m).length = 32) (r key : List Nat)
    (h : r.length = 1536) :
    rtmp.hsCreate2 hm r key = r.take 1504 ++ hm key (r.take 1504) := by
  have hgap : r.length - 32 = 1504 := by omega
  have hdrop : r.drop 1536 = [] := List.drop_eq_nil_of_le (by omega)
  simp only [rtmp.hsCreate2, rtmp.setSlice, rtmp.hsMakeDigest, hgap]
  rw [if_neg (by omega : ¬ ((1504 : Nat) : Int) ≤ 0)]
  have ht : ((1504 : Nat) : Int).toNat = 1504 := by omega
  rw [ht, hdrop, List.append_nil, hlen,
    show (1504 : Nat) + 32 = 1536 from rfl, hdrop, List.append_nil]

/-- C2: whenever the server handshake validates a C1 with nonzero version
(the client digest sitting at the validated position `pos`), the S2 it sends
is 1536 bytes whose last 32 equal
`HMAC(HMAC(full 68-byte server key, client digest), S2 first 1504 bytes)`. -/
theorem handshake_s2_digest (hm : List Nat → List Nat → List Nat)
    (hlen : ∀ k m, (hm k m).length = 32)
    (c1 r1 r2 s1 s2 : List Nat) (pos : Int)
    (h2 : r2.length = 1536)
    (hv : rtmp.u32beGet c1 4 ≠ 0)
    (hpos : rtmp.hsDigestPos hm c1 rtmp.hsClientPartKey = pos)
    (hrun : rtmp.handshakeServer hm c1 r1 r2 = some (s1, s2)) :
    s2.length = 1536 ∧
    s2.drop 1504 =
      hm (hm rtmp.hsServerFullKey ((c1.drop pos.toNat).take 32)) (s2.take 1504) := by
  have hneg : pos ≠ -1 := by
    intro heq
    subst heq
    have hp1 : rtmp.hsParse1 hm c1 rtmp.hsClientPartKey rtmp.hsServerFullKey = none := by
      simp only [rtmp.hsParse1]
      rw [hpos, if_pos rfl]
    simp only [rtmp.handshakeServer] at hrun
    rw [if_pos hv, hp1] at hrun
    exact absurd hrun (by simp)
  have hp := hsParse1_eq_some hm c1 rtmp.hsClientPartKey rtmp.hsServerFullKey pos hpos hneg
  have hs := handshakeServer_digest_eq hm c1 r1 r2 _ hv hp
  rw [hs] at hrun
  simp only [Option.some.injEq, Prod.mk.injEq] at hrun
  obtain ⟨-, hs2⟩ := hrun
  have hc2 := hsCreate2_spec hm hlen r2
    (hm rtmp.hsServerFullKey ((c1.drop pos.toNat).take 32)) h2
  have htlen : (r2.take 1504).length = 1504 := by
    rw [List.length_take]
    omega
  have htake : s2.take 1504 = r2.take 1504 := by
    rw [← hs2, hc2]
    exact List.take_left' htlen
  have hdrop : s2.drop 1504 =
      hm (hm rtmp.hsServerFullKey ((c1.drop pos.toNat).take 32)) (r2.take 1504) := by
    rw [← hs2, hc2]
    exact List.drop_left' htlen
  refine ⟨?_, ?_⟩
  · rw [← hs2, hc2, List.length_append, htlen, hlen]
  · rw [hdrop, htake]

end Streamer

namespace Streamer

set_option maxRecDepth 400000 in
/-- C2 witness: the digest relation concretely, for a C1 validated at
position 776 under the `hmTest` HMAC stand-in. -/
theorem handshake_s2_digest_witness :
    rtmp.handshakeServer hmTest c1w r1Test r2Test = some (s1Test, s2Test) ∧
    s2Test.length = 1536 ∧
    s2Test.drop 1504 =
      hmTest (hmTest rtmp.hsServerFullKey ((c1w.drop 776).take 32))
        (s2Test.take 1504) := by
  have h := handshake_s2_digest hmTest (fun k m => by simp [hmTest]) c1w r1Test r2Test
    s1Test s2Test 776 (by rfl) (by decide) (by rfl) (by rfl)
  refine ⟨rfl, h.1, ?_⟩
  have h2 := h.2
  norm_num at h2
  exact h2

end Streamer

namespace Streamer

set_option maxRecDepth 100000 in
/-- C4 counterexample: starting from a stream already holding parseable SPS
and PPS records, the flush of `[SPS', data, PPS', data]` (all parameter sets
valid, so the codec rebuild succeeds) emits its second packet with
`header_changed = true` and rebuilds the codec record, although the only
parameter-set NALU between the first and second emissions is the PPS — the
SPS change predates the first emission, which carried no `header_changed`. -/
theorem ts_headerChanged_cex :
    (ts.payloadEndH264
        ⟨some spsTestBytes, some [104, 206, 56], some (spsTestBytes, [104, 206, 56])⟩
        [spsTestBytes ++ [0], [101, 0], [104, 206, 56, 0], [101, 0]]).1.map
      ts.VPkt.headerChanged = [false, true] ∧
    (ts.payloadEndH264
        ⟨some spsTestBytes, some [104, 206, 56], some (spsTestBytes, [104, 206, 56])⟩
        [spsTestBytes ++ [0], [101, 0], [104, 206, 56, 0], [101, 0]]).2 =
      some ⟨some (spsTestBytes ++ [0]), some [104, 206, 56, 0],
            some (spsTestBytes ++ [0], [104, 206, 56, 0])⟩ ∧
    ((spsTestBytes ++ [0]).headD 0 % 32 = ts.NALU_SPS ∧
     [104, 206, 56, 0].headD 0 % 32 = ts.NALU_PPS ∧
     ts.IsDataNALU [101, 0] = true ∧
     ¬ ([104, 206, 56, 0].headD 0 % 32 = ts.NALU_SPS)) := by
  refine ⟨rfl, rfl, by decide⟩

/-- C4 amended: in the per-NALU step of the H.264 flush, a data NALU with
both change flags pending is emitted with `header_changed = true`, the codec
record rebuilt from the stored SPS/PPS and both flags reset, when the
rebuild (`NewCodecDataFromSPSAndPPS`) succeeds; when it fails (stored SPS
shorter than 4 bytes or unparseable SPS/PPS) the flush aborts with the error
and emits nothing for that NALU.  With at most one flag pending the packet
carries `header_changed = false` and the state is untouched, so a lone
change is remembered, not absorbed.  An SPS (resp. PPS) NALU emits nothing,
leaves the codec record alone, and raises its flag exactly when a previous
SPS (resp. PPS) exists and differs byte-wise. -/
theorem ts_headerChanged_step (s : ts.FlushState) (nalu : List Nat) :
    (ts.IsDataNALU nalu = true →
      ((s.ppsChange ≠ 0 ∧ s.spsChange ≠ 0) →
        ts.processNALU s nalu =
          (ts.updateAvcCodec s.st).map (fun st' =>
            ({ s with st := st', ppsChange := 0, spsChange := 0 },
             some ⟨true, u32be (nalu.length % M32) ++ nalu⟩))) ∧
      (¬ (s.ppsChange ≠ 0 ∧ s.spsChange ≠ 0) →
        ts.processNALU s nalu =
          some (s, some ⟨false, u32be (nalu.length % M32) ++ nalu⟩))) ∧
    (nalu.headD 0 % 32 = ts.NALU_SPS → nalu ≠ [] →
      ((s.st.sps ≠ none ∧ s.st.sps ≠ some nalu) →
        ts.processNALU s nalu =
          some ({ s with localSps := nalu, spsChange := 1,
                         st := { s.st with sps := some nalu } }, none)) ∧
      (¬ (s.st.sps ≠ none ∧ s.st.sps ≠ some nalu) →
        ts.processNALU s nalu = some ({ s with localSps := nalu }, none))) ∧
    (nalu.headD 0 % 32 = ts.NALU_PPS → nalu ≠ [] →
      ((s.st.pps ≠ none ∧ s.st.pps ≠ some nalu) →
        ts.processNALU s nalu =
          some ({ s with localPps := nalu, ppsChange := 1,
                         st := { s.st with pps := some nalu } }, none)) ∧
      (¬ (s.st.pps ≠ none ∧ s.st.pps ≠ some nalu) →
        ts.processNALU s nalu = some ({ s with localPps := nalu }, none))) := by
  refine ⟨?_, ?_, ?_⟩
  · intro hdata
    have hlen0 : nalu.length > 0 := by
      cases nalu with
      | nil => simp [ts.IsDataNALU] at hdata
      | cons a l => simp
    have h7 : ¬ (nalu.headD 0 % 32 = ts.NALU_SPS) := by
      simp only [ts.IsDataNALU, ts.NALU_SPS, decide_eq_true_eq] at hdata ⊢
      omega
    have h8 : ¬ (nalu.headD 0 % 32 = ts.NALU_PPS) := by
      simp only [ts.IsDataNALU, ts.NALU_PPS, decide_eq_true_eq] at hdata ⊢
      omega
    constructor
    · intro hboth
      simp only [ts.processNALU, if_pos hlen0, if_neg h7, if_neg h8, hdata,
        if_true, if_pos hboth]
      cases hA : ts.updateAvcCodec s.st <;> rfl
    · intro hnot
      simp only [ts.processNALU, if_pos hlen0, if_neg h7, if_neg h8, hdata,
        if_true, if_neg hnot]
  · intro hsps hne
    have hlen0 : nalu.length > 0 := by
      cases nalu with
      | nil => exact absurd rfl hne
      | cons a l => simp
    constructor
    · intro hc
      simp only [ts.processNALU, if_pos hlen0, if_pos hsps, if_pos hc]
    · intro hc
      simp only [ts.processNALU, if_pos hlen0, if_pos hsps, if_neg hc]
  · intro hpps hne
    have hlen0 : nalu.length > 0 := by
      cases nalu with
      | nil => exact absurd rfl hne
      | cons a l => simp
    have h7 : ¬ (nalu.headD 0 % 32 = ts.NALU_SPS) := by
      rw [hpps]
      decide
    constructor
    · intro hc
      simp only [ts.processNALU, if_pos hlen0, if_neg h7, if_pos hpps, if_pos hc]
    · intro hc
      simp only [ts.processNALU, if_pos hlen0, if_neg h7, if_pos hpps, if_neg hc]

set_option maxRecDepth 100000 in
/-- C4 amended witness: with both flags pending, a data NALU emits
`header_changed = true` and rebuilds the codec record when the stored
parameter sets are valid, and aborts the flush (emitting nothing) when the
stored SPS is shorter than 4 bytes. -/
theorem ts_headerChanged_step_witness :
    ts.processNALU
        ⟨⟨some spsTestBytes, some [104, 206, 56], none⟩, [], [], 1, 1⟩ [101, 0] =
      some (⟨⟨some spsTestBytes, some [104, 206, 56],
              some (spsTestBytes, [104, 206, 56])⟩, [], [], 0, 0⟩,
            some ⟨true, u32be (2 % M32) ++ [101, 0]⟩) ∧
    ts.processNALU
        ⟨⟨some [103], some [104, 206, 56], none⟩, [], [], 1, 1⟩ [101, 0] = none := by
  constructor
  · have h := ((ts_headerChanged_step
      ⟨⟨some spsTestBytes, some [104, 206, 56], none⟩, [], [], 1, 1⟩
      [101, 0]).1 (by decide)).1 (by decide)
    rw [h]
    rfl
  · have h := ((ts_headerChanged_step
      ⟨⟨some [103], some [104, 206, 56], none⟩, [], [], 1, 1⟩
      [101, 0]).1 (by decide)).1 (by decide)
    rw [h]
    rfl

end Streamer

namespace Streamer.h264

/-- Success of a reader bind splits into success of both stages. -/
theorem P_bind_eq_some {α β : Type} (x : P α) (f : α → P β) (bs : List Bool)
    (b : β × List Bool) :
    (x >>= f) bs = some b ↔ ∃ ar, x bs = some ar ∧ f ar.1 ar.2 = some b := by
  change (match x bs with | none => none | some ar => f ar.1 ar.2) = some b ↔ _
  cases hx : x bs with
  | none => simp
  | some ar => simp

/-- A reader `pure` succeeds with exactly its value and the untouched
stream. -/
theorem P_pure_eq_some {α : Type} (a : α) (bs : List Bool) (b : α × List Bool) :
    (pure a : P α) bs = some b ↔ b = (a, bs) := by
  change some (a, bs) = some b ↔ _
  simp [eq_comm]

/-- Successive Go uint64 subtractions collapse to one subtraction of the
sum. -/
theorem usub64_usub64 (a b c : Nat) :
    Streamer.usub64 (Streamer.usub64 a b) c = Streamer.usub64 a (b + c) := by
  unfold Streamer.usub64 Streamer.M64
  omega

/-- When the timing-info block is present with a positive
`num_units_in_tick`, its `FPS` output is `TimeScale / NumUnitsInTick`,
halved when `fixed_frame_rate_flag` is set. -/
theorem timingPart_fps (bs : List Bool) (t : (Nat × Nat × Nat × Nat × Nat) × List Bool)
    (h : timingPart bs = some t) (hf : t.1.1 ≠ 0) (hn : 0 < t.1.2.1) :
    t.1.2.2.2.2 = if t.1.2.2.2.1 ≠ 0 then t.1.2.2.1 / t.1.2.1 / 2
                  else t.1.2.2.1 / t.1.2.1 := by
  simp only [timingPart, P_bind_eq_some] at h
  obtain ⟨⟨f, s1⟩, hrd, h⟩ := h
  by_cases hfz : f ≠ 0
  · rw [if_pos hfz] at h
    simp only [P_bind_eq_some, P_pure_eq_some] at h
    obtain ⟨⟨nut, s2⟩, h2, ⟨tsv, s3⟩, h3, ⟨ffr, s4⟩, h4, hfin⟩ := h
    subst hfin
    simp only at hf hn ⊢
    rw [if_pos hn]
  · rw [if_neg hfz] at h
    simp only [P_pure_eq_some] at h
    subst h
    simp only at hf
    exact absurd hf hfz

/-- The `FPS` field of a successfully parsed VUI obeys the timing formula. -/
theorem parseVui_fps (bs : List Bool) (v : VuiInfo × List Bool)
    (h : parseVui bs = some v) (hf : v.1.timingInfoPresentFlag ≠ 0)
    (hn : 0 < v.1.numUnitsInTick) :
    v.1.fps = if v.1.fixedFrameRateFlag ≠ 0
              then v.1.timeScale / v.1.numUnitsInTick / 2
              else v.1.timeScale / v.1.numUnitsInTick := by
  simp only [parseVui, P_bind_eq_some, P_pure_eq_some] at h
  obtain ⟨a, ha, o, ho, vs, hvs, c, hc, t, ht, hfin⟩ := h
  subst hfin
  simp only at hf hn ⊢
  exact timingPart_fps _ t ht hf hn

end Streamer.h264

namespace Streamer

/-- C8: every SPS accepted by `ParseSPS` decodes `Width`, `Height` and (when
VUI timing info is present with a positive `NumUnitsInTick`) `FPS` by the
spec formulas `Width = (w+1)*16 - (cropL+cropR)*2`,
`Height = (2-frameMbsOnly)*(h+1)*16 - (cropT+cropB)*2` (in the source's
wrapping uint arithmetic) and `FPS = TimeScale/NumUnitsInTick`, halved under
`FixedFrameRateFlag`. -/
theorem parseSPS_dimensions (data : List Nat) (sps : h264.SPSInfo)
    (h : h264.ParseSPS data = some sps) :
    sps.width = usub64 ((sps.picWidthInMbsMinus1 + 1) * 16)
        ((sps.cropLeft + sps.cropRight) * 2) ∧
    sps.height = usub64 ((2 - sps.frameMbsOnlyFlag) *
        (sps.picHeightInMapUnitsMinus1 + 1) * 16)
        ((sps.cropTop + sps.cropBottom) * 2) ∧
    (sps.timingInfoPresentFlag ≠ 0 → 0 < sps.numUnitsInTick →
      sps.fps = if sps.fixedFrameRateFlag ≠ 0
                then sps.timeScale / sps.numUnitsInTick / 2
                else sps.timeScale / sps.numUnitsInTick) := by
  unfold h264.ParseSPS at h
  cases hrun : h264.spsTop (h264.bytesToBits (h264.deEmulationPrevention data)) with
  | none =>
    rw [hrun] at h
    exact Option.noConfusion h
  | some sr =>
    rw [hrun] at h
    obtain ⟨sv, rest⟩ := sr
    simp only [Option.some.injEq] at h
    subst h
    simp only [h264.spsTop, h264.P_bind_eq_some, h264.P_pure_eq_some] at hrun
    obtain ⟨fzb, h1, nri, h2, nut, h3, prof, h4, cst, h5, rz, h6, lvl, h7, sid, h8,
      pe, h9, lmf, h10, poc, h11, pp, h12, mnr, h13, gaps, h14, picW, h15, picH,
      h16, mbs, h17, d8, h18, crop, h19, vflag, h20, vui, h21, hfin⟩ := hrun
    simp only [Prod.mk.injEq] at hfin
    obtain ⟨hsv, -⟩ := hfin
    subst hsv
    refine ⟨?_, ?_, ?_⟩
    · dsimp only [h264.mkSPSInfo]
      rw [h264.usub64_usub64]
      congr 1
      ring
    · dsimp only [h264.mkSPSInfo]
      rw [h264.usub64_usub64]
      congr 1
      ring
    · intro hf hn
      dsimp only [h264.mkSPSInfo] at hf hn ⊢
      simp only [h264.vuiPart] at h21
      by_cases hvf : vflag.1 ≠ 0
      · rw [if_pos hvf] at h21
        exact h264.parseVui_fps _ _ h21 hf hn
      · rw [if_neg hvf, h264.P_pure_eq_some] at h21
        subst h21
        exact absurd hf (by simp)

end Streamer

namespace Streamer

set_option maxRecDepth 100000 in
/-- C8 witness: the concrete baseline SPS parses to 640x360 at 30 fps and
satisfies the dimension and frame-rate formulas. -/
theorem parseSPS_dimensions_witness :
    h264.ParseSPS spsTestBytes = some spsTestVal ∧
    spsTestVal.width = 640 ∧ spsTestVal.height = 360 ∧ spsTestVal.fps = 30 ∧
    spsTestVal.fps = (if spsTestVal.fixedFrameRateFlag ≠ 0
        then spsTestVal.timeScale / spsTestVal.numUnitsInTick / 2
        else spsTestVal.timeScale / spsTestVal.numUnitsInTick) ∧
    spsTestVal.width = usub64 ((spsTestVal.picWidthInMbsMinus1 + 1) * 16)
        ((spsTestVal.cropLeft + spsTestVal.cropRight) * 2) ∧
    spsTestVal.height = usub64 ((2 - spsTestVal.frameMbsOnlyFlag) *
        (spsTestVal.picHeightInMapUnitsMinus1 + 1) * 16)
        ((spsTestVal.cropTop + spsTestVal.cropBottom) * 2) :=
  ⟨rfl, rfl, rfl, rfl,
   (parseSPS_dimensions spsTestBytes spsTestVal rfl).2.2 (by decide) (by decide),
   (parseSPS_dimensions spsTestBytes spsTestVal rfl).1,
   (parseSPS_dimensions spsTestBytes spsTestVal rfl).2.1⟩

end Streamer
